import Mathlib

/-!
Shallow embedding of the asm2x6xtool transport-and-framing layer
(src/usb.rs, src/linux.rs, src/asm2x6x.rs, src/error.rs).

Machine integers (u8, u32) are modelled as `Nat`, with `% 2^8` / `% 2^32`
written explicitly wherever the Rust code casts or wraps.  Byte buffers are
`List Nat`.  Fallible Rust functions returning `Result<_, Error>` become
Lean functions returning `Except Err _`.  The USB bulk endpoints are
modelled by an explicit event trace (`USBEvent`) recording every bulk
write/read the code would issue, and the responses of the device/kernel
are supplied as explicit oracle inputs (`USBWorld`, `SgCompletion`).
-/

namespace Asm2x6x

/-- Error enumeration from src/error.rs.  `usb`, `ioErr` and `nix` stand for
the wrapped transport errors (their payloads are irrelevant to control flow). -/
inductive Err where
  | usb
  | InvalidCDB
  | InvalidCSW
  | CSWIOError (status : Nat)
  | TransferStillPending
  | InvalidCSWTag
  | NoTransferPending
  | CSWResidue (residue : Nat)
  | ioErr
  | nix
  | SgIoError
deriving DecidableEq

/-- CBW_SIGNATURE from src/usb.rs. -/
def CBW_SIGNATURE : Nat := 0x43425355

/-- CSW_SIGNATURE from src/usb.rs. -/
def CSW_SIGNATURE : Nat := 0x53425355

/-- CBWDirection from src/usb.rs (discriminants 0x00 / 0x80). -/
inductive CBWDirection where
  | toDevice
  | toHost
deriving DecidableEq

/-- The numeric discriminant of a CBWDirection (`cbw.direction as u8`). -/
def CBWDirection.toByte : CBWDirection → Nat
  | .toDevice => 0x00
  | .toHost => 0x80

/-- struct CBW from src/usb.rs. -/
structure CBW where
  tag : Nat
  length : Nat
  direction : CBWDirection
  lun : Nat
  command_length : Nat
  command_data : List Nat
deriving DecidableEq

/-- Little-endian byte decomposition of a u32 (`u32::to_le_bytes`). -/
def u32ToLE (x : Nat) : List Nat :=
  [x % 256, x / 256 % 256, x / 65536 % 256, x / 16777216 % 256]

/-- Little-endian u32 read at offset `i` of a byte buffer
(`u32::from_le_bytes([b[i], b[i+1], b[i+2], b[i+3]])`). -/
def fromLE4 (b : List Nat) (i : Nat) : Nat :=
  b.getD i 0 + 256 * b.getD (i + 1) 0 + 65536 * b.getD (i + 2) 0 +
    16777216 * b.getD (i + 3) 0

/-- impl From&lt;CBW&gt; for [u8; 31] from src/usb.rs: signature at offset 0,
tag at 4, length at 8, direction byte at 12, lun at 13, cdb length at 14,
16 command-data bytes at 15..31. -/
def cbwToBytes (cbw : CBW) : List Nat :=
  u32ToLE CBW_SIGNATURE ++ u32ToLE cbw.tag ++ u32ToLE cbw.length ++
    ([cbw.direction.toByte, cbw.lun, cbw.command_length] ++ cbw.command_data)

/-- struct CSW from src/usb.rs. -/
structure CSW where
  tag : Nat
  residue : Nat
  status : Nat
deriving DecidableEq

/-- impl TryFrom&lt;&amp;[u8; 13]&gt; for CSW from src/usb.rs: a signature mismatch is
`InvalidCSW`, otherwise the tag, residue and status fields are decoded. -/
def cswFromBytes (bfr : List Nat) : Except Err CSW :=
  if fromLE4 bfr 0 ≠ CSW_SIGNATURE then
    .error .InvalidCSW
  else
    .ok { tag := fromLE4 bfr 4, residue := fromLE4 bfr 8, status := bfr.getD 12 0 }

/-- The mutable session state of the USB-BOT backend (fields `tag : u32` and
`pending : bool` of struct Device in src/usb.rs). -/
structure USBState where
  tag : Nat
  pending : Bool
deriving DecidableEq

/-- One bulk-endpoint operation issued on the wire. -/
inductive USBEvent where
  | bulkWrite (ep : Nat) (data : List Nat)
  | bulkRead (ep : Nat) (len : Nat)
deriving DecidableEq

instance : DecidableEq (Except Err Unit) := fun x y =>
  match x, y with
  | .ok _, .ok _ => isTrue rfl
  | .error a, .error b =>
    if h : a = b then isTrue (by rw [h]) else isFalse (fun hx => by cases hx; exact h rfl)
  | .ok _, .error _ => isFalse (fun hx => by cases hx)
  | .error _, .ok _ => isFalse (fun hx => by cases hx)

/-- Result of running a backend operation: the returned `Result`, the final
session state, and the trace of bulk operations issued. -/
structure USBOut where
  result : Except Err Unit
  state : USBState
  events : List USBEvent
deriving DecidableEq

/-- The CBW struct built inside Device::send_cbw (src/usb.rs:226-234):
tag already incremented, lun 0, command length `cdb.len() as u8`, and the
CDB zero-padded to 16 bytes. -/
def send_cbw_frame (tag : Nat) (length : Nat) (dir : CBWDirection)
    (cdb : List Nat) : CBW :=
  { tag := tag, length := length, direction := dir, lun := 0,
    command_length := cdb.length, command_data := cdb ++ List.replicate (16 - cdb.length) 0 }

/-- Device::send_cbw from src/usb.rs:214-244.  `writeOk` is the oracle for
the `write_bulk(0x02, ...)` call.  A CDB longer than 16 bytes is rejected
first, then a pending transfer; only then is the tag incremented (wrapping
u32 arithmetic), the CBW encoded and written, and `pending` set on success. -/
def send_cbw (s : USBState) (cdb : List Nat) (direction : CBWDirection)
    (length : Nat) (writeOk : Bool) : USBOut :=
  if cdb.length > 16 then
    ⟨.error .InvalidCDB, s, []⟩
  else if s.pending then
    ⟨.error .TransferStillPending, s, []⟩
  else
    let tag := (s.tag + 1) % 2 ^ 32
    let bfr := cbwToBytes (send_cbw_frame tag length direction cdb)
    if writeOk then
      ⟨.ok (), ⟨tag, true⟩, [.bulkWrite 0x02 bfr]⟩
    else
      ⟨.error .usb, ⟨tag, s.pending⟩, [.bulkWrite 0x02 bfr]⟩

/-- Device::recv_csw from src/usb.rs:246-269.  `readResult` is the oracle for
the `read_bulk(0x81, ...)` call (`none` = transport failure, `some bfr` = the
13 bytes read).  After decoding, the checks run in source order: status,
then tag, then residue; only full success clears `pending`. -/
def recv_csw (s : USBState) (readResult : Option (List Nat)) : USBOut :=
  if !s.pending then
    ⟨.error .NoTransferPending, s, []⟩
  else
    match readResult with
    | none => ⟨.error .usb, s, [.bulkRead 0x81 13]⟩
    | some bfr =>
      match cswFromBytes bfr with
      | .error e => ⟨.error e, s, [.bulkRead 0x81 13]⟩
      | .ok csw =>
        if csw.status ≠ 0 then
          ⟨.error (.CSWIOError csw.status), s, [.bulkRead 0x81 13]⟩
        else if csw.tag ≠ s.tag then
          ⟨.error .InvalidCSWTag, s, [.bulkRead 0x81 13]⟩
        else if csw.residue ≠ 0 then
          ⟨.error (.CSWResidue csw.residue), s, [.bulkRead 0x81 13]⟩
        else
          ⟨.ok (), ⟨s.tag, false⟩, [.bulkRead 0x81 13]⟩

/-- Which of the three Backend trait methods is invoked
(transfer / transfer_to_device / transfer_from_device). -/
inductive TOp where
  | noData
  | toDevice (data : List Nat)
  | fromDevice (len : Nat)
deriving DecidableEq

/-- Oracle for one whole transfer: the outcome of the CBW bulk write, of the
data-phase bulk operation, and the CSW bytes read back (`none` = transport
failure on the CSW read). -/
structure USBWorld where
  writeOk : Bool
  dataOk : Bool
  cswRead : Option (List Nat)
deriving DecidableEq

/-- Sequencing helper: run recv_csw after a successful earlier phase,
accumulating the event trace. -/
def thenRecvCSW (o : USBOut) (w : USBWorld) : USBOut :=
  let o2 := recv_csw o.state w.cswRead
  ⟨o2.result, o2.state, o.events ++ o2.events⟩

/-- The three Backend methods of impl Backend for Device in src/usb.rs:277-301.
transfer sends a CBW with length 0 ToDevice; transfer_to_device sends a CBW
with length `data.len() as u32` ToDevice then writes the data on endpoint
0x02; transfer_from_device sends a CBW with length `data.len() as u32` ToHost
then reads into the buffer from endpoint 0x81; each then receives the CSW.
An error at any phase propagates immediately (the `?` operator). -/
def runTransfer (s : USBState) (cdb : List Nat) (op : TOp) (w : USBWorld) : USBOut :=
  let dir := match op with
    | .fromDevice _ => CBWDirection.toHost
    | _ => CBWDirection.toDevice
  let len := match op with
    | .noData => 0
    | .toDevice data => data.length % 2 ^ 32
    | .fromDevice n => n % 2 ^ 32
  let o1 := send_cbw s cdb dir len w.writeOk
  match o1.result with
  | .error e => ⟨.error e, o1.state, o1.events⟩
  | .ok _ =>
    match op with
    | .noData => thenRecvCSW o1 w
    | .toDevice data =>
      if w.dataOk then
        thenRecvCSW ⟨.ok (), o1.state, o1.events ++ [.bulkWrite 0x02 data]⟩ w
      else
        ⟨.error .usb, o1.state, o1.events ++ [.bulkWrite 0x02 data]⟩
    | .fromDevice n =>
      if w.dataOk then
        thenRecvCSW ⟨.ok (), o1.state, o1.events ++ [.bulkRead 0x81 n]⟩ w
      else
        ⟨.error .usb, o1.state, o1.events ++ [.bulkRead 0x81 n]⟩

/-! SCSI-generic backend (src/linux.rs). -/

/-- enum TransferBuffer from src/linux.rs.  For `FromDevice` only the caller
buffer's length influences control flow and the number of bytes copied back,
so the variant carries that length. -/
inductive TransferBuffer where
  | noXfer
  | toDevice (bfr : List Nat)
  | fromDevice (buflen : Nat)
deriving DecidableEq

/-- Modelled from the spec: SG_INFO_OK_MASK comes from the bindgen-generated
sg.rs (build.rs runs bindgen over the kernel header scsi/sg.h, so the value
is not in the repository's sources).  The spec describes the check as
inspecting a completion-status field for an "OK" bit; the kernel interface
defines the mask as the low bit. -/
def SG_INFO_OK_MASK : Nat := 0x1

/-- Modelled from the spec: SG_INFO_OK, the "OK" value of the masked
completion-status field, likewise from the bindgen-generated sg.rs; the
kernel interface defines it as 0. -/
def SG_INFO_OK : Nat := 0x0

/-- Completion data written back by the SG_IO ioctl: the info word, the
diagnostic status fields, the sense bytes, and the contents of the data
buffer after the call (for a from-device request the kernel writes the
received bytes into it; its length equals the requested `dxfer_len`). -/
structure SgCompletion where
  info : Nat
  status : Nat
  masked_status : Nat
  host_status : Nat
  sb_len_wr : Nat
  sense : List Nat
  data : List Nat
deriving DecidableEq

/-- Device::ioctl_sg_io from src/linux.rs:143-209.  `res` is the oracle for
the SG_IO ioctl (`none` = the ioctl itself failed).  Returns the `Result`
(carrying, for a from-device request, the bytes copied into the caller's
buffer by `bfr.copy_from_slice(&data[..bfr.len()])`) paired with whether the
ioctl was issued at all.  The CDB length check precedes the ioctl. -/
def ioctl_sg_io (cdb : List Nat) (xfer : TransferBuffer)
    (res : Option SgCompletion) : Except Err (Option (List Nat)) × Bool :=
  if cdb.length > 16 then
    (.error .InvalidCDB, false)
  else
    match res with
    | none => (.error .nix, true)
    | some c =>
      if c.info &&& SG_INFO_OK_MASK ≠ SG_INFO_OK then
        (.error .SgIoError, true)
      else
        match xfer with
        | .fromDevice buflen => (.ok (some (c.data.take buflen)), true)
        | _ => (.ok none, true)

/-! Device command layer (src/asm2x6x.rs). -/

/-- Command opcodes from src/asm2x6x.rs. -/
def CMD_READ : Nat := 0xe4

/-- FlashRead opcode from src/asm2x6x.rs. -/
def CMD_FLASH_READ : Nat := 0xe2

/-- Firmware image size read by Device::read_firmware (src/asm2x6x.rs:130). -/
def FW_SIZE : Nat := 0x17ee0

/-- One transfer_from_device call issued by the command layer: the CDB, the
offset of the destination slice inside the caller's buffer, and the length
of that slice (which is also the transfer length handed to the backend). -/
structure CmdCall where
  cdb : List Nat
  off : Nat
  len : Nat
deriving DecidableEq

/-- The CDB built by Device::read in src/asm2x6x.rs:76-88: the address is
masked to 17 bits and OR-ed with 0x500000, cdb[1] is `bfr.len() as u8`
(a truncating cast to one byte), and the address is split big-endian over
cdb[2..5]. -/
def read_cdb (addr : Nat) (buflen : Nat) : List Nat :=
  let a := addr % 2 ^ 32 &&& 0x01ffff ||| 0x500000
  [CMD_READ, buflen % 256, a / 65536 % 256, a / 256 % 256, a % 256, 0x00]

/-- Device::read hands the whole buffer to transfer_from_device: the
backend call covers offset 0 and the full `bfr.len()`. -/
def read_call (addr : Nat) (buflen : Nat) : CmdCall :=
  ⟨read_cdb addr buflen, 0, buflen⟩

/-- First flash-read CDB of Device::read_firmware (src/asm2x6x.rs:132-138):
cdb[1]=0x50, cdb[2]=0x00, cdb[3]=0xff, cdb[4]=0x00, cdb[5]=0x00. -/
def fw_cdb1 : List Nat := [CMD_FLASH_READ, 0x50, 0x00, 0xff, 0x00, 0x00]

/-- Second flash-read CDB of Device::read_firmware (src/asm2x6x.rs:146-149):
cdb[1]=0xd0, cdb[2]=0x00, cdb[3]=0x7f, cdb[4]=0xe0, cdb[5]=0x00. -/
def fw_cdb2 : List Nat := [CMD_FLASH_READ, 0xd0, 0x00, 0x7f, 0xe0, 0x00]

/-- Device::read_firmware from src/asm2x6x.rs:129-157, with the backend's
success/failure supplied by the oracle `ok`.  It transfers into
`bfr[..0xff00]` with fw_cdb1, then into `bfr[0xff00..]` (length
FW_SIZE - 0xff00) with fw_cdb2; a failed chunk aborts immediately.  The
returned trace lists the transfer_from_device calls actually issued. -/
def read_firmware (ok : CmdCall → Bool) : Except Err Unit × List CmdCall :=
  let c1 : CmdCall := ⟨fw_cdb1, 0, 0xff00⟩
  if ok c1 = false then
    (.error .usb, [c1])
  else
    let c2 : CmdCall := ⟨fw_cdb2, 0xff00, FW_SIZE - 0xff00⟩
    if ok c2 = false then
      (.error .usb, [c1, c2])
    else
      (.ok (), [c1, c2])

/-- All-clear CSW wire bytes for tag `t`: correct signature, tag `t`,
residue 0, status 0. -/
def cswOkBytes (t : Nat) : List Nat :=
  u32ToLE CSW_SIGNATURE ++ u32ToLE t ++ ([0, 0, 0, 0] ++ [0])

/-! Helper lemmas. -/

theorem u32_le_roundtrip (x : Nat) (hx : x < 4294967296) :
    x % 256 + 256 * (x / 256 % 256) + 65536 * (x / 65536 % 256) +
      16777216 * (x / 16777216 % 256) = x := by
  omega

theorem take_append_self (l r : List Nat) : (l ++ r).take l.length = l := by
  induction l with
  | nil => rfl
  | cons a t ih => simp [ih]

theorem send_cbw_blocked_pending (s : USBState) (cdb : List Nat)
    (dir : CBWDirection) (len : Nat) (wOk : Bool) (hlen : cdb.length ≤ 16)
    (hp : s.pending = true) :
    send_cbw s cdb dir len wOk = ⟨.error .TransferStillPending, s, []⟩ := by
  simp [send_cbw, Nat.not_lt.mpr hlen, hp]

theorem runTransfer_blocked_pending (s : USBState) (cdb : List Nat) (op : TOp)
    (w : USBWorld) (hlen : cdb.length ≤ 16) (hp : s.pending = true) :
    runTransfer s cdb op w = ⟨.error .TransferStillPending, s, []⟩ := by
  cases op <;>
    simp [runTransfer, send_cbw_blocked_pending _ _ _ _ _ hlen hp]

theorem send_cbw_ok (s : USBState) (cdb : List Nat) (dir : CBWDirection)
    (len : Nat) (hlen : cdb.length ≤ 16) (hp : s.pending = false) :
    send_cbw s cdb dir len true =
      ⟨.ok (), ⟨(s.tag + 1) % 2 ^ 32, true⟩,
        [.bulkWrite 0x02
          (cbwToBytes (send_cbw_frame ((s.tag + 1) % 2 ^ 32) len dir cdb))]⟩ := by
  simp [send_cbw, Nat.not_lt.mpr hlen, hp]

/-! C2 -/

/-- C2 counterexample: the second transfer issued by read_firmware has size
0x17ee0 - 0xff00 = 0x7fe0 bytes, not 0x08e0 as the claim states. -/
theorem c2_counterexample :
    ((read_firmware fun _ => true).2.getD 1 ⟨[], 0, 0⟩).len = 0x7fe0 ∧
      (0x7fe0 : Nat) ≠ 0x08e0 :=
  ⟨rfl, by decide⟩

/-- C2 (amended): read_firmware issues exactly two from-device transfers,
the first of size 0xff00 and the second of size 0x7fe0, which together cover
the range [0, 0x17ee0) of the returned buffer with no gap and no overlap,
in that order. -/
theorem c2_read_firmware_chunks (ok : CmdCall → Bool)
    (h1 : ok ⟨fw_cdb1, 0, 0xff00⟩ = true)
    (h2 : ok ⟨fw_cdb2, 0xff00, FW_SIZE - 0xff00⟩ = true) :
    read_firmware ok =
      (.ok (), [⟨fw_cdb1, 0, 0xff00⟩, ⟨fw_cdb2, 0xff00, FW_SIZE - 0xff00⟩]) ∧
    FW_SIZE - 0xff00 = 0x7fe0 ∧
    (0 : Nat) + 0xff00 = 0xff00 ∧
    0xff00 + (FW_SIZE - 0xff00) = FW_SIZE := by
  refine ⟨?_, by decide, by decide, by decide⟩
  simp [read_firmware, h1, h2]

/-- C2 witness: the amended theorem applied to the always-granting oracle. -/
theorem c2_witness :
    ((fun _ => true : CmdCall → Bool) ⟨fw_cdb1, 0, 0xff00⟩ = true) ∧
    ((fun _ => true : CmdCall → Bool) ⟨fw_cdb2, 0xff00, FW_SIZE - 0xff00⟩ = true) ∧
    ((read_firmware fun _ => true) =
      (.ok (), [⟨fw_cdb1, 0, 0xff00⟩, ⟨fw_cdb2, 0xff00, FW_SIZE - 0xff00⟩]) ∧
    FW_SIZE - 0xff00 = 0x7fe0 ∧
    (0 : Nat) + 0xff00 = 0xff00 ∧
    0xff00 + (FW_SIZE - 0xff00) = FW_SIZE) :=
  ⟨rfl, rfl, c2_read_firmware_chunks (fun _ => true) rfl rfl⟩

/-! C4 -/

/-- C4: for every CDB of length at most 16, every direction, and every
(u32) tag and transfer length, the encoded CBW is 31 bytes with the fixed
signature at offset 0, the tag little-endian at offset 4, the length
little-endian at offset 8, the direction byte at offset 12, lun 0 at
offset 13, the CDB length at offset 14, and the CDB zero-padded to 16 bytes
at offsets 15..31 — so decoding at those offsets reproduces the tag, length,
direction, lun, and CDB bytes. -/
theorem c4_cbw_roundtrip (cdb : List Nat) (dir : CBWDirection) (tag len : Nat)
    (hc : cdb.length ≤ 16) (ht : tag < 2 ^ 32) (hl : len < 2 ^ 32) :
    (cbwToBytes (send_cbw_frame tag len dir cdb)).length = 31 ∧
    fromLE4 (cbwToBytes (send_cbw_frame tag len dir cdb)) 0 = CBW_SIGNATURE ∧
    fromLE4 (cbwToBytes (send_cbw_frame tag len dir cdb)) 4 = tag ∧
    fromLE4 (cbwToBytes (send_cbw_frame tag len dir cdb)) 8 = len ∧
    (cbwToBytes (send_cbw_frame tag len dir cdb)).getD 12 0 = dir.toByte ∧
    (cbwToBytes (send_cbw_frame tag len dir cdb)).getD 13 0 = 0 ∧
    (cbwToBytes (send_cbw_frame tag len dir cdb)).getD 14 0 = cdb.length ∧
    (cbwToBytes (send_cbw_frame tag len dir cdb)).drop 15 =
      cdb ++ List.replicate (16 - cdb.length) 0 ∧
    ((cbwToBytes (send_cbw_frame tag len dir cdb)).drop 15).take cdb.length = cdb := by
  have hdrop : (cbwToBytes (send_cbw_frame tag len dir cdb)).drop 15 =
      cdb ++ List.replicate (16 - cdb.length) 0 := by
    simp only [cbwToBytes, u32ToLE, send_cbw_frame, List.cons_append,
      List.nil_append, List.drop_succ_cons, List.drop_zero]
  refine ⟨?_, ?_, ?_, ?_, ?_, ?_, ?_, hdrop, ?_⟩
  · simp [cbwToBytes, u32ToLE, send_cbw_frame]
    omega
  · norm_num [fromLE4, cbwToBytes, u32ToLE, send_cbw_frame, CBW_SIGNATURE]
  · simp only [fromLE4, cbwToBytes, u32ToLE, send_cbw_frame, List.cons_append,
      List.nil_append, List.getD_cons_succ, List.getD_cons_zero]
    omega
  · simp only [fromLE4, cbwToBytes, u32ToLE, send_cbw_frame, List.cons_append,
      List.nil_append, List.getD_cons_succ, List.getD_cons_zero]
    omega
  · simp only [cbwToBytes, u32ToLE, send_cbw_frame, List.cons_append,
      List.nil_append, List.getD_cons_succ, List.getD_cons_zero]
  · simp only [cbwToBytes, u32ToLE, send_cbw_frame, List.cons_append,
      List.nil_append, List.getD_cons_succ, List.getD_cons_zero]
  · simp only [cbwToBytes, u32ToLE, send_cbw_frame, List.cons_append,
      List.nil_append, List.getD_cons_succ, List.getD_cons_zero]
  · rw [hdrop]
    exact take_append_self cdb _

/-- C4 witness: the roundtrip theorem at a concrete 3-byte CDB. -/
theorem c4_witness :
    ([0xe4, 0x12, 0x34] : List Nat).length ≤ 16 ∧ (0xdeadbeef : Nat) < 2 ^ 32 ∧
    (0x80 : Nat) < 2 ^ 32 ∧
    ((cbwToBytes (send_cbw_frame 0xdeadbeef 0x80 .toHost [0xe4, 0x12, 0x34])).length = 31 ∧
    fromLE4 (cbwToBytes (send_cbw_frame 0xdeadbeef 0x80 .toHost [0xe4, 0x12, 0x34])) 0 =
      CBW_SIGNATURE ∧
    fromLE4 (cbwToBytes (send_cbw_frame 0xdeadbeef 0x80 .toHost [0xe4, 0x12, 0x34])) 4 =
      0xdeadbeef ∧
    fromLE4 (cbwToBytes (send_cbw_frame 0xdeadbeef 0x80 .toHost [0xe4, 0x12, 0x34])) 8 =
      0x80 ∧
    (cbwToBytes (send_cbw_frame 0xdeadbeef 0x80 .toHost [0xe4, 0x12, 0x34])).getD 12 0 =
      CBWDirection.toHost.toByte ∧
    (cbwToBytes (send_cbw_frame 0xdeadbeef 0x80 .toHost [0xe4, 0x12, 0x34])).getD 13 0 = 0 ∧
    (cbwToBytes (send_cbw_frame 0xdeadbeef 0x80 .toHost [0xe4, 0x12, 0x34])).getD 14 0 =
      ([0xe4, 0x12, 0x34] : List Nat).length ∧
    (cbwToBytes (send_cbw_frame 0xdeadbeef 0x80 .toHost [0xe4, 0x12, 0x34])).drop 15 =
      [0xe4, 0x12, 0x34] ++ List.replicate (16 - ([0xe4, 0x12, 0x34] : List Nat).length) 0 ∧
    ((cbwToBytes (send_cbw_frame 0xdeadbeef 0x80 .toHost [0xe4, 0x12, 0x34])).drop 15).take
      ([0xe4, 0x12, 0x34] : List Nat).length = [0xe4, 0x12, 0x34]) :=
  ⟨by decide, by decide, by decide,
    c4_cbw_roundtrip [0xe4, 0x12, 0x34] .toHost 0xdeadbeef 0x80
      (by decide) (by decide) (by decide)⟩

/-! C6 -/

/-- C6: a CDB longer than 16 bytes makes every transfer operation on either
backend fail with InvalidCDB before any I/O: the USB backend returns with no
bulk events and an unchanged state (tag and pending as before), and the
SCSI-generic backend returns without issuing the ioctl. -/
theorem c6_long_cdb_rejected :
    (∀ (s : USBState) (cdb : List Nat) (op : TOp) (w : USBWorld),
      cdb.length > 16 → runTransfer s cdb op w = ⟨.error .InvalidCDB, s, []⟩) ∧
    (∀ (cdb : List Nat) (xfer : TransferBuffer) (res : Option SgCompletion),
      cdb.length > 16 → ioctl_sg_io cdb xfer res = (.error .InvalidCDB, false)) := by
  constructor
  · intro s cdb op w h
    cases op <;> simp [runTransfer, send_cbw, h]
  · intro cdb xfer res h
    simp [ioctl_sg_io, h]

/-- C6 witness: a 17-byte CDB is rejected by both backends. -/
theorem c6_witness :
    (List.replicate 17 0).length > 16 ∧
    runTransfer ⟨0xdeadbeef, false⟩ (List.replicate 17 0) .noData ⟨true, true, none⟩ =
      ⟨.error .InvalidCDB, ⟨0xdeadbeef, false⟩, []⟩ ∧
    ioctl_sg_io (List.replicate 17 0) .noXfer none = (.error .InvalidCDB, false) :=
  ⟨by decide,
    c6_long_cdb_rejected.1 ⟨0xdeadbeef, false⟩ (List.replicate 17 0) .noData
      ⟨true, true, none⟩ (by decide),
    c6_long_cdb_rejected.2 (List.replicate 17 0) .noXfer none (by decide)⟩

/-! C9 -/

/-- C9: send_cbw checks the CDB length before the pending flag, so a CDB
longer than 16 bytes yields InvalidCDB even while a transfer is pending
(the first conjunct makes no assumption on the pending flag); and on both
the InvalidCDB and the TransferStillPending failure the state — tag and
pending flag — is returned exactly as it was, with no bulk event. -/
theorem c9_send_cbw_check_order (s : USBState) (cdb : List Nat)
    (dir : CBWDirection) (len : Nat) (wOk : Bool) :
    (cdb.length > 16 → send_cbw s cdb dir len wOk = ⟨.error .InvalidCDB, s, []⟩) ∧
    (cdb.length ≤ 16 → s.pending = true →
      send_cbw s cdb dir len wOk = ⟨.error .TransferStillPending, s, []⟩) := by
  constructor
  · intro h
    simp [send_cbw, h]
  · intro hlen hp
    exact send_cbw_blocked_pending s cdb dir len wOk hlen hp

/-- C9 witness: a pending-state backend rejects a 17-byte CDB with
InvalidCDB and a 0-byte CDB with TransferStillPending, both leaving the
state untouched. -/
theorem c9_witness :
    (List.replicate 17 0).length > 16 ∧
    send_cbw ⟨3, true⟩ (List.replicate 17 0) .toDevice 0 true =
      ⟨.error .InvalidCDB, ⟨3, true⟩, []⟩ ∧
    ([] : List Nat).length ≤ 16 ∧
    send_cbw ⟨3, true⟩ [] .toDevice 0 true =
      ⟨.error .TransferStillPending, ⟨3, true⟩, []⟩ :=
  ⟨by decide,
    (c9_send_cbw_check_order ⟨3, true⟩ (List.replicate 17 0) .toDevice 0 true).1 (by decide),
    by decide,
    (c9_send_cbw_check_order ⟨3, true⟩ [] .toDevice 0 true).2 (by decide) rfl⟩

/-! C10 -/

/-- C10: Device::read stores the buffer length into the single-byte length
field of the CDB as a truncating cast: for every buffer of length at least
256 the encoded length byte equals the length mod 256, while the backend is
still asked to transfer the full buffer (offset 0, full length). -/
theorem c10_read_length_truncation (addr buflen : Nat) (h : 256 ≤ buflen) :
    (read_cdb addr buflen).getD 1 0 = buflen % 256 ∧
    (read_call addr buflen).len = buflen ∧
    (read_call addr buflen).off = 0 ∧
    (read_call addr buflen).cdb = read_cdb addr buflen :=
  ⟨rfl, rfl, rfl, rfl⟩

/-- C10 witness: a 300-byte buffer encodes length byte 44 = 300 mod 256. -/
theorem c10_witness :
    256 ≤ 300 ∧
    ((read_cdb 0x1234 300).getD 1 0 = 300 % 256 ∧
      (read_call 0x1234 300).len = 300 ∧
      (read_call 0x1234 300).off = 0 ∧
      (read_call 0x1234 300).cdb = read_cdb 0x1234 300) :=
  ⟨by decide, c10_read_length_truncation 0x1234 300 (by decide)⟩

/-! C1 -/

/-- C1 counterexample: a 13-byte CSW with correct signature, a tag (6)
different from the backend's current tag (5), residue 0, and nonzero
status 1 is rejected with CSWIOError 1, not InvalidCSWTag: the code checks
the status byte before the tag. -/
theorem c1_counterexample :
    (recv_csw ⟨5, true⟩
        (some [0x55, 0x53, 0x42, 0x53, 6, 0, 0, 0, 0, 0, 0, 0, 1])).result =
      .error (.CSWIOError 1) ∧
    Err.CSWIOError 1 ≠ Err.InvalidCSWTag := by
  refine ⟨?_, by decide⟩
  norm_num [recv_csw, cswFromBytes, fromLE4, CSW_SIGNATURE]

/-- C1 (amended): CSW response validation examines the fields in the order
signature, then status, then tag, then residue: a 13-byte buffer with wrong
signature yields InvalidCSW; with correct signature but nonzero status byte
yields CSWIOError(status) regardless of the tag and residue; with status 0
but a tag different from the backend's current tag yields InvalidCSWTag
regardless of the residue; with status 0 and correct tag but nonzero residue
yields CSWResidue(residue); and only a buffer with all four fields correct
yields success. -/
theorem c1_csw_validation (s : USBState) (bfr : List Nat)
    (hp : s.pending = true) (hlen : bfr.length = 13) :
    (fromLE4 bfr 0 ≠ CSW_SIGNATURE →
      recv_csw s (some bfr) = ⟨.error .InvalidCSW, s, [.bulkRead 0x81 13]⟩) ∧
    (fromLE4 bfr 0 = CSW_SIGNATURE → bfr.getD 12 0 ≠ 0 →
      recv_csw s (some bfr) =
        ⟨.error (.CSWIOError (bfr.getD 12 0)), s, [.bulkRead 0x81 13]⟩) ∧
    (fromLE4 bfr 0 = CSW_SIGNATURE → bfr.getD 12 0 = 0 → fromLE4 bfr 4 ≠ s.tag →
      recv_csw s (some bfr) = ⟨.error .InvalidCSWTag, s, [.bulkRead 0x81 13]⟩) ∧
    (fromLE4 bfr 0 = CSW_SIGNATURE → bfr.getD 12 0 = 0 → fromLE4 bfr 4 = s.tag →
      fromLE4 bfr 8 ≠ 0 →
      recv_csw s (some bfr) =
        ⟨.error (.CSWResidue (fromLE4 bfr 8)), s, [.bulkRead 0x81 13]⟩) ∧
    (fromLE4 bfr 0 = CSW_SIGNATURE → bfr.getD 12 0 = 0 → fromLE4 bfr 4 = s.tag →
      fromLE4 bfr 8 = 0 →
      recv_csw s (some bfr) = ⟨.ok (), ⟨s.tag, false⟩, [.bulkRead 0x81 13]⟩) := by
  refine ⟨?_, ?_, ?_, ?_, ?_⟩ <;> intros <;> simp_all [recv_csw, cswFromBytes]

/-- C1 witness: the amended validation theorem applied to the state with
tag 7 and the all-clear CSW bytes for tag 7 (its success conjunct). -/
theorem c1_witness :
    (⟨7, true⟩ : USBState).pending = true ∧ (cswOkBytes 7).length = 13 ∧
    (fromLE4 (cswOkBytes 7) 0 = CSW_SIGNATURE ∧ (cswOkBytes 7).getD 12 0 = 0 ∧
      fromLE4 (cswOkBytes 7) 4 = 7 ∧ fromLE4 (cswOkBytes 7) 8 = 0) ∧
    recv_csw ⟨7, true⟩ (some (cswOkBytes 7)) =
      ⟨.ok (), ⟨7, false⟩, [.bulkRead 0x81 13]⟩ := by
  have h9 : fromLE4 (cswOkBytes 7) 0 = CSW_SIGNATURE := by
    norm_num [fromLE4, cswOkBytes, u32ToLE, CSW_SIGNATURE]
  have h12 : (cswOkBytes 7).getD 12 0 = 0 := by
    norm_num [cswOkBytes, u32ToLE]
  have h4 : fromLE4 (cswOkBytes 7) 4 = 7 := by
    norm_num [fromLE4, cswOkBytes, u32ToLE]
  have h8 : fromLE4 (cswOkBytes 7) 8 = 0 := by
    norm_num [fromLE4, cswOkBytes, u32ToLE]
  have hl : (cswOkBytes 7).length = 13 := by norm_num [cswOkBytes, u32ToLE]
  exact ⟨rfl, hl, ⟨h9, h12, h4, h8⟩,
    (c1_csw_validation ⟨7, true⟩ (cswOkBytes 7) rfl hl).2.2.2.2 h9 h12 h4 h8⟩

/-! C5 -/

/-- C5: starting any of the three transfers with a CDB of length at most 16
while the pending flag is set fails with TransferStillPending and performs
no I/O — no bulk events, and the state (tag included) is returned exactly as
it was; and receiving a CSW while the pending flag is clear fails with
NoTransferPending and performs no I/O. -/
theorem c5_pending_exclusivity :
    (∀ (s : USBState) (cdb : List Nat) (op : TOp) (w : USBWorld),
      s.pending = true → cdb.length ≤ 16 →
      runTransfer s cdb op w = ⟨.error .TransferStillPending, s, []⟩) ∧
    (∀ (s : USBState) (r : Option (List Nat)), s.pending = false →
      recv_csw s r = ⟨.error .NoTransferPending, s, []⟩) := by
  constructor
  · intro s cdb op w hp hlen
    exact runTransfer_blocked_pending s cdb op w hlen hp
  · intro s r hp
    simp [recv_csw, hp]

/-- C5 witness: a pending backend rejects a fresh transfer with
TransferStillPending; an idle backend rejects recv_csw with
NoTransferPending; both without I/O or state change. -/
theorem c5_witness :
    (⟨9, true⟩ : USBState).pending = true ∧ ([] : List Nat).length ≤ 16 ∧
    runTransfer ⟨9, true⟩ [] .noData ⟨true, true, none⟩ =
      ⟨.error .TransferStillPending, ⟨9, true⟩, []⟩ ∧
    (⟨9, false⟩ : USBState).pending = false ∧
    recv_csw ⟨9, false⟩ (some (cswOkBytes 9)) =
      ⟨.error .NoTransferPending, ⟨9, false⟩, []⟩ :=
  ⟨rfl, by decide,
    c5_pending_exclusivity.1 ⟨9, true⟩ [] .noData ⟨true, true, none⟩ rfl (by decide),
    rfl,
    c5_pending_exclusivity.2 ⟨9, false⟩ (some (cswOkBytes 9)) rfl⟩

/-! C8 -/

/-- C8: in the SCSI-generic backend, a completed passthrough whose info
field passes the OK-bit check on a from-device request copies exactly the
caller buffer's length of received data into the caller's buffer and
succeeds; if the OK check fails, the call fails with SgIoError regardless
of the values of every other status field (status, masked status, host
status, sense bytes), for every request kind. -/
theorem c8_sg_completion (cdb : List Nat) (buflen : Nat) (c : SgCompletion)
    (hc : cdb.length ≤ 16) :
    (c.info &&& SG_INFO_OK_MASK = SG_INFO_OK → c.data.length = buflen →
      ioctl_sg_io cdb (.fromDevice buflen) (some c) = (.ok (some c.data), true)) ∧
    (∀ xfer : TransferBuffer, c.info &&& SG_INFO_OK_MASK ≠ SG_INFO_OK →
      ioctl_sg_io cdb xfer (some c) = (.error .SgIoError, true)) := by
  constructor
  · intro hok hdata
    simp [ioctl_sg_io, Nat.not_lt.mpr hc, hok]
    rw [← hdata]
  · intro xfer hbad
    simp [ioctl_sg_io, Nat.not_lt.mpr hc, hbad]

/-- C8 witness: an OK completion returns the three received bytes; a non-OK
completion with arbitrary diagnostic fields yields SgIoError. -/
theorem c8_witness :
    ([0xe4] : List Nat).length ≤ 16 ∧
    ((⟨0, 0, 0, 0, 0, [], [9, 8, 7]⟩ : SgCompletion).info &&& SG_INFO_OK_MASK =
      SG_INFO_OK ∧
    (⟨0, 0, 0, 0, 0, [], [9, 8, 7]⟩ : SgCompletion).data.length = 3 ∧
    ioctl_sg_io [0xe4] (.fromDevice 3) (some ⟨0, 0, 0, 0, 0, [], [9, 8, 7]⟩) =
      (.ok (some [9, 8, 7]), true)) ∧
    ((⟨1, 2, 3, 4, 5, [6], []⟩ : SgCompletion).info &&& SG_INFO_OK_MASK ≠
      SG_INFO_OK ∧
    ioctl_sg_io [0xe4] (.fromDevice 3) (some ⟨1, 2, 3, 4, 5, [6], []⟩) =
      (.error .SgIoError, true)) :=
  ⟨by decide,
    ⟨by decide, by decide,
      (c8_sg_completion [0xe4] 3 ⟨0, 0, 0, 0, 0, [], [9, 8, 7]⟩ (by decide)).1
        (by decide) (by decide)⟩,
    ⟨by decide,
      (c8_sg_completion [0xe4] 3 ⟨1, 2, 3, 4, 5, [6], []⟩ (by decide)).2
        (.fromDevice 3) (by decide)⟩⟩

/-! Further helper lemmas about recv_csw and runTransfer. -/

theorem recv_csw_error_state (s : USBState) (r : Option (List Nat)) (e : Err)
    (h : (recv_csw s r).result = .error e) : (recv_csw s r).state = s := by
  obtain ⟨tg, pend⟩ := s
  cases pend
  · simp [recv_csw]
  · cases r with
    | none => simp [recv_csw]
    | some bfr =>
      rcases hdec : cswFromBytes bfr with e2 | csw
      · simp [recv_csw, hdec]
      · by_cases hs : csw.status = 0
        · by_cases htg : csw.tag = tg
          · by_cases hr : csw.residue = 0
            · simp [recv_csw, hdec, hs, htg, hr] at h
            · simp [recv_csw, hdec, hs, htg, hr]
          · simp [recv_csw, hdec, hs, htg]
        · simp [recv_csw, hdec, hs]

theorem recv_csw_pending_or_ok (s : USBState) (r : Option (List Nat))
    (hp : s.pending = true) :
    (recv_csw s r).state.pending = true ∨ (recv_csw s r).result = .ok () := by
  rcases hres : (recv_csw s r).result with e | u
  · left
    rw [recv_csw_error_state s r e hres, hp]
  · right
    rfl

theorem runTransfer_sent_pending_or_ok (s : USBState) (cdb : List Nat)
    (op : TOp) (w : USBWorld) (hlen : cdb.length ≤ 16) (hp : s.pending = false)
    (hw : w.writeOk = true) :
    (runTransfer s cdb op w).state.pending = true ∨
    (runTransfer s cdb op w).result = .ok () := by
  obtain ⟨tg, pend⟩ := s
  obtain ⟨wo, dk, cr⟩ := w
  dsimp only at hp hw
  subst hp
  subst hw
  cases op with
  | noData =>
    simp only [runTransfer, send_cbw_ok ⟨tg, false⟩ cdb _ _ hlen rfl, thenRecvCSW]
    exact recv_csw_pending_or_ok ⟨(tg + 1) % 2 ^ 32, true⟩ cr rfl
  | toDevice data =>
    simp only [runTransfer, send_cbw_ok ⟨tg, false⟩ cdb _ _ hlen rfl, thenRecvCSW]
    cases dk
    · simp
    · simp
      exact recv_csw_pending_or_ok ⟨(tg + 1) % 2 ^ 32, true⟩ cr rfl
  | fromDevice n =>
    simp only [runTransfer, send_cbw_ok ⟨tg, false⟩ cdb _ _ hlen rfl, thenRecvCSW]
    cases dk
    · simp
    · simp
      exact recv_csw_pending_or_ok ⟨(tg + 1) % 2 ^ 32, true⟩ cr rfl

theorem recv_csw_success (s : USBState) (bfr : List Nat) (hp : s.pending = true)
    (hsig : fromLE4 bfr 0 = CSW_SIGNATURE) (hst : bfr.getD 12 0 = 0)
    (htg : fromLE4 bfr 4 = s.tag) (hres : fromLE4 bfr 8 = 0) :
    recv_csw s (some bfr) = ⟨.ok (), ⟨s.tag, false⟩, [.bulkRead 0x81 13]⟩ := by
  simp_all [recv_csw, cswFromBytes]

theorem recv_csw_okBytes (t : Nat) (ht : t < 2 ^ 32) :
    recv_csw ⟨t, true⟩ (some (cswOkBytes t)) =
      ⟨.ok (), ⟨t, false⟩, [.bulkRead 0x81 13]⟩ := by
  have hsig : fromLE4 (cswOkBytes t) 0 = CSW_SIGNATURE := by
    norm_num [fromLE4, cswOkBytes, u32ToLE, CSW_SIGNATURE]
  have htag : fromLE4 (cswOkBytes t) 4 = t := by
    simp only [fromLE4, cswOkBytes, u32ToLE, List.cons_append, List.nil_append,
      List.getD_cons_succ, List.getD_cons_zero]
    omega
  have hres : fromLE4 (cswOkBytes t) 8 = 0 := by
    norm_num [fromLE4, cswOkBytes, u32ToLE]
  have hst : (cswOkBytes t).getD 12 0 = 0 := by
    norm_num [cswOkBytes, u32ToLE]
  exact recv_csw_success ⟨t, true⟩ (cswOkBytes t) rfl hsig hst htag hres

theorem cbw_tag_field (t len : Nat) (dir : CBWDirection) (cdb : List Nat)
    (ht : t < 2 ^ 32) :
    fromLE4 (cbwToBytes (send_cbw_frame t len dir cdb)) 4 = t := by
  simp only [fromLE4, cbwToBytes, u32ToLE, send_cbw_frame, List.cons_append,
    List.nil_append, List.getD_cons_succ, List.getD_cons_zero]
  omega

/-! C3 -/

/-- C3 (amended): if a transfer whose CBW was sent fails (in the data or
CSW-receive phase), the backend's pending flag remains true, and every
subsequent transfer call with a CDB of length at most 16 on that backend
fails with TransferStillPending (a longer CDB fails with InvalidCDB
instead), so no further command can ever complete on it. -/
theorem c3_failed_transfer_wedges (s : USBState) (cdb : List Nat) (op : TOp)
    (w : USBWorld) (e : Err) (hlen : cdb.length ≤ 16) (hp : s.pending = false)
    (hw : w.writeOk = true)
    (herr : (runTransfer s cdb op w).result = .error e) :
    (runTransfer s cdb op w).state.pending = true ∧
    ∀ (cdb2 : List Nat) (op2 : TOp) (w2 : USBWorld), cdb2.length ≤ 16 →
      (runTransfer (runTransfer s cdb op w).state cdb2 op2 w2).result =
        .error .TransferStillPending := by
  have hpend : (runTransfer s cdb op w).state.pending = true := by
    rcases runTransfer_sent_pending_or_ok s cdb op w hlen hp hw with h | h
    · exact h
    · rw [herr] at h
      exact Except.noConfusion h
  refine ⟨hpend, fun cdb2 op2 w2 h2 => ?_⟩
  rw [runTransfer_blocked_pending _ cdb2 op2 w2 h2 hpend]

/-- C3 counterexample: after a transfer whose CSW phase failed (garbage CSW,
so InvalidCSW and pending stays set), a subsequent transfer with a 17-byte
CDB fails with InvalidCDB, not TransferStillPending — so not every
subsequent transfer call fails with TransferStillPending. -/
theorem c3_counterexample :
    (runTransfer ⟨0, false⟩ [] .noData
        ⟨true, true, some (List.replicate 13 0)⟩).result = .error .InvalidCSW ∧
    (runTransfer ⟨0, false⟩ [] .noData
        ⟨true, true, some (List.replicate 13 0)⟩).state = ⟨1, true⟩ ∧
    (runTransfer ⟨1, true⟩ (List.replicate 17 0) .noData
        ⟨true, true, some (List.replicate 13 0)⟩).result = .error .InvalidCDB ∧
    Err.InvalidCDB ≠ Err.TransferStillPending := by
  refine ⟨?_, ?_, ?_, by decide⟩
  · norm_num [runTransfer, send_cbw, thenRecvCSW, recv_csw, cswFromBytes, fromLE4,
      cbwToBytes, u32ToLE, send_cbw_frame, CSW_SIGNATURE, CBW_SIGNATURE,
      List.replicate, List.getD]
  · norm_num [runTransfer, send_cbw, thenRecvCSW, recv_csw, cswFromBytes, fromLE4,
      cbwToBytes, u32ToLE, send_cbw_frame, CSW_SIGNATURE, CBW_SIGNATURE,
      List.replicate, List.getD]
  · norm_num [runTransfer, send_cbw, List.replicate]

/-- C3 witness: a concrete wedged backend — the garbage-CSW transfer leaves
pending set and a following well-formed transfer gets TransferStillPending. -/
theorem c3_witness :
    ([] : List Nat).length ≤ 16 ∧ (⟨0, false⟩ : USBState).pending = false ∧
    (⟨true, true, some (List.replicate 13 0)⟩ : USBWorld).writeOk = true ∧
    (runTransfer ⟨0, false⟩ [] .noData
        ⟨true, true, some (List.replicate 13 0)⟩).result = .error .InvalidCSW ∧
    (runTransfer ⟨0, false⟩ [] .noData
        ⟨true, true, some (List.replicate 13 0)⟩).state.pending = true ∧
    (runTransfer (runTransfer ⟨0, false⟩ [] .noData
          ⟨true, true, some (List.replicate 13 0)⟩).state [0xe4] .noData
        ⟨true, true, some (List.replicate 13 0)⟩).result =
      .error .TransferStillPending := by
  have herr : (runTransfer ⟨0, false⟩ [] .noData
      ⟨true, true, some (List.replicate 13 0)⟩).result = .error .InvalidCSW := by
    norm_num [runTransfer, send_cbw, thenRecvCSW, recv_csw, cswFromBytes, fromLE4,
      cbwToBytes, u32ToLE, send_cbw_frame, CSW_SIGNATURE, CBW_SIGNATURE,
      List.replicate, List.getD]
  have h := c3_failed_transfer_wedges ⟨0, false⟩ [] .noData
    ⟨true, true, some (List.replicate 13 0)⟩ .InvalidCSW (by decide) rfl rfl herr
  exact ⟨by decide, rfl, rfl, herr, h.1,
    h.2 [0xe4] .noData ⟨true, true, some (List.replicate 13 0)⟩ (by decide)⟩

/-! C7 -/

/-- C7: on one USB-BOT backend instance, the tag carried in the CBW emitted
by a send is (tag+1) mod 2^32, and after a successful CSW exchange the next
send's CBW carries a tag exactly one greater mod 2^32 than the previous
CBW's; and a received CSW with correct signature, status 0 and residue 0
whose tag differs from the backend's current tag is rejected with
InvalidCSWTag even though it is otherwise well-formed. -/
theorem c7_tag_increment :
    (∀ (s : USBState) (cdb1 cdb2 : List Nat) (dir1 dir2 : CBWDirection)
        (len1 len2 : Nat), cdb1.length ≤ 16 → cdb2.length ≤ 16 →
      s.pending = false →
      ∃ b1 b2,
        (send_cbw s cdb1 dir1 len1 true).events = [.bulkWrite 0x02 b1] ∧
        (send_cbw (recv_csw (send_cbw s cdb1 dir1 len1 true).state
            (some (cswOkBytes (send_cbw s cdb1 dir1 len1 true).state.tag))).state
          cdb2 dir2 len2 true).events = [.bulkWrite 0x02 b2] ∧
        fromLE4 b1 4 = (s.tag + 1) % 2 ^ 32 ∧
        fromLE4 b2 4 = (fromLE4 b1 4 + 1) % 2 ^ 32) ∧
    (∀ (s : USBState) (bfr : List Nat), s.pending = true →
      fromLE4 bfr 0 = CSW_SIGNATURE → bfr.getD 12 0 = 0 → fromLE4 bfr 8 = 0 →
      fromLE4 bfr 4 ≠ s.tag →
      (recv_csw s (some bfr)).result = .error .InvalidCSWTag) := by
  constructor
  · intro s cdb1 cdb2 dir1 dir2 len1 len2 h1 h2 hp
    have t1lt : (s.tag + 1) % 2 ^ 32 < 2 ^ 32 := Nat.mod_lt _ (by norm_num)
    have t2lt : ((s.tag + 1) % 2 ^ 32 + 1) % 2 ^ 32 < 2 ^ 32 :=
      Nat.mod_lt _ (by norm_num)
    rw [send_cbw_ok s cdb1 dir1 len1 h1 hp]
    dsimp only
    rw [recv_csw_okBytes ((s.tag + 1) % 2 ^ 32) t1lt]
    dsimp only
    rw [send_cbw_ok ⟨(s.tag + 1) % 2 ^ 32, false⟩ cdb2 dir2 len2 h2 rfl]
    dsimp only
    refine ⟨_, _, rfl, rfl, cbw_tag_field _ len1 dir1 cdb1 t1lt, ?_⟩
    rw [cbw_tag_field _ len1 dir1 cdb1 t1lt, cbw_tag_field _ len2 dir2 cdb2 t2lt]
  · intro s bfr hp hsig hst hres htag
    simp_all [recv_csw, cswFromBytes]

/-- C7 witness: the tag-increment part applied to a fresh backend with tag 0
and two empty CDBs, and the stale-tag part applied to the all-clear CSW for
tag 6 received by a backend whose current tag is 5. -/
theorem c7_witness :
    ([] : List Nat).length ≤ 16 ∧ (⟨0, false⟩ : USBState).pending = false ∧
    (∃ b1 b2,
      (send_cbw ⟨0, false⟩ [] .toDevice 0 true).events = [.bulkWrite 0x02 b1] ∧
      (send_cbw (recv_csw (send_cbw ⟨0, false⟩ [] .toDevice 0 true).state
          (some (cswOkBytes (send_cbw ⟨0, false⟩ [] .toDevice 0 true).state.tag))).state
        [] .toDevice 0 true).events = [.bulkWrite 0x02 b2] ∧
      fromLE4 b1 4 = ((⟨0, false⟩ : USBState).tag + 1) % 2 ^ 32 ∧
      fromLE4 b2 4 = (fromLE4 b1 4 + 1) % 2 ^ 32) ∧
    (fromLE4 (cswOkBytes 6) 0 = CSW_SIGNATURE ∧ (cswOkBytes 6).getD 12 0 = 0 ∧
      fromLE4 (cswOkBytes 6) 8 = 0 ∧
      fromLE4 (cswOkBytes 6) 4 ≠ (⟨5, true⟩ : USBState).tag) ∧
    (recv_csw ⟨5, true⟩ (some (cswOkBytes 6))).result = .error .InvalidCSWTag := by
  have hsig : fromLE4 (cswOkBytes 6) 0 = CSW_SIGNATURE := by
    norm_num [fromLE4, cswOkBytes, u32ToLE, CSW_SIGNATURE]
  have hst : (cswOkBytes 6).getD 12 0 = 0 := by
    norm_num [cswOkBytes, u32ToLE]
  have hres : fromLE4 (cswOkBytes 6) 8 = 0 := by
    norm_num [fromLE4, cswOkBytes, u32ToLE]
  have htag : fromLE4 (cswOkBytes 6) 4 ≠ (⟨5, true⟩ : USBState).tag := by
    norm_num [fromLE4, cswOkBytes, u32ToLE]
  exact ⟨by decide, rfl,
    c7_tag_increment.1 ⟨0, false⟩ [] [] .toDevice .toDevice 0 0
      (by decide) (by decide) rfl,
    ⟨hsig, hst, hres, htag⟩,
    c7_tag_increment.2 ⟨5, true⟩ (cswOkBytes 6) rfl hsig hst hres htag⟩

end Asm2x6x
